import Mathlib

/-!
Verification of the iiko synchronization and normalization engine
(`services/iiko/iiko_parser.py` and `routers/iiko/sync.py`).

Python values reaching the normalizer are modelled by the inductive `PyVal`:
`None`, `bool`, `int`, `float` (modelled as a rational, which is exact for
every value the coercion rules inspect), `str`, lists (also standing for
tuples and sets, which the source treats identically) and dicts (association
lists keyed by strings, as every payload dict is).
-/

inductive PyVal where
  | none : PyVal
  | bool : Bool → PyVal
  | int : Int → PyVal
  | float : ℚ → PyVal
  | str : String → PyVal
  | list : List PyVal → PyVal
  | dict : List (String × PyVal) → PyVal
deriving Repr

/-- `d.get(k)` without default: first binding of `k`, if any. -/
def dictGet (es : List (String × PyVal)) (k : String) : Option PyVal :=
  match es with
  | [] => Option.none
  | (k0, v) :: rest => if k0 = k then Option.some v else dictGet rest k

/-- `d.get(k, default)`. -/
def pyGet (es : List (String × PyVal)) (k : String) (d : PyVal) : PyVal :=
  match dictGet es k with
  | Option.some v => v
  | Option.none => d

/-- `isinstance(v, (int, float))`.  In Python `bool` is a subclass of `int`,
so booleans satisfy this test. -/
def isinstanceNum : PyVal → Bool
  | .bool _ => true
  | .int _ => true
  | .float _ => true
  | _ => false

/-- `float(v)` applied to a value for which `isinstanceNum` holds
(`True` → 1.0, `False` → 0.0); 0 on other constructors, where it is never
used. -/
def pyToFloat : PyVal → ℚ
  | .bool b => if b then 1 else 0
  | .int n => (n : ℚ)
  | .float q => q
  | _ => 0

/-- Model of `str.lower` (agreeing with it on the ASCII data involved). -/
def pyLower (s : String) : String := String.mk (s.data.map Char.toLower)

/-- Model of `str.strip()`: drop whitespace from both ends. -/
def pyStrip (s : String) : String :=
  String.mk (((s.data.dropWhile Char.isWhitespace).reverse.dropWhile Char.isWhitespace).reverse)

/-- `_parse_boolean` (iiko_parser.py, lines 13-19): a native bool passes
through, a string is compared lowercased against "true", everything else is
False. -/
def parseBoolean : PyVal → Bool
  | .bool b => b
  | .str s => pyLower s = "true"
  | _ => false

/-- `_safe_get` (iiko_parser.py, lines 22-27): `data.get(key, default)`,
normalising an empty-dict value to `None`.  In Python only a dict with no
items compares equal to `{}`. -/
def safeGet (es : List (String × PyVal)) (k : String) (d : PyVal) : PyVal :=
  let value := pyGet es k d
  match value with
  | .dict [] => .none
  | v => v

/-- The fixed priority list of sub-keys searched by
`_extract_numeric_value` on a dict. -/
def priorityKeys : List String := ["sum", "value", "amount", "price", "average"]

/-- The `for key in [...]` loop of `_extract_numeric_value`: return
`float(value[key])` for the first key present with a numeric value, else
`None`. -/
def numFromKeys (es : List (String × PyVal)) : List String → Option ℚ
  | [] => Option.none
  | k :: ks =>
    match dictGet es k with
    | Option.some v =>
      if isinstanceNum v then Option.some (pyToFloat v) else numFromKeys es ks
    | Option.none => numFromKeys es ks

/-- Digits to the natural number they denote. -/
def digitsToNat (cs : List Char) : Nat :=
  cs.foldl (fun acc c => acc * 10 + (c.toNat - 48)) 0

/-- Model of the builtin `float(s)` string conversion on the decimal forms
the payloads use: optional surrounding whitespace, an optional sign, then
digits with an optional fractional part (at least one digit overall).
Exotic accepted spellings (exponents, inf/nan, underscores) are outside the
model; on them it returns `Option.none` like any other unparsable text. -/
def parseFloat? (s : String) : Option ℚ :=
  let cs := (pyStrip s).toList
  let signed : Bool × List Char :=
    match cs with
    | '-' :: rest => (true, rest)
    | '+' :: rest => (false, rest)
    | _ => (false, cs)
  let body := signed.2
  let ip := body.takeWhile Char.isDigit
  let r1 := body.dropWhile Char.isDigit
  let mag : Option ℚ :=
    match r1 with
    | [] => if ip.isEmpty then Option.none else Option.some (digitsToNat ip : ℚ)
    | '.' :: r2 =>
      let fp := r2.takeWhile Char.isDigit
      let r3 := r2.dropWhile Char.isDigit
      if r3.isEmpty then
        if ip.isEmpty ∧ fp.isEmpty then Option.none
        else Option.some ((digitsToNat ip : ℚ) + (digitsToNat fp : ℚ) / (10 : ℚ) ^ fp.length)
      else Option.none
    | _ => Option.none
  mag.map (fun q => if signed.1 then -q else q)

/-- `_extract_numeric_value` (iiko_parser.py, lines 30-49).  Branch order in
the source: dict, then `isinstance(value, (int, float))` — which booleans
satisfy —, then str, else `None`. -/
def extractNumericValue : PyVal → Option ℚ
  | .dict es => numFromKeys es priorityKeys
  | .bool b => Option.some (pyToFloat (.bool b))
  | .int n => Option.some ((n : ℚ))
  | .float q => Option.some q
  | .str s => parseFloat? s
  | _ => Option.none

/-- The numeric-coercion contract as the spec words it: a number (booleans
included, being Python ints) becomes its float; text parses or yields null;
a mapping yields the value of the first priority sub-key holding a numeric
value, null when none does; anything else yields null. -/
def extractNumericSpec : PyVal → Option ℚ
  | .dict es =>
    (priorityKeys.filterMap (fun k =>
      match dictGet es k with
      | Option.some v => if isinstanceNum v then Option.some (pyToFloat v) else Option.none
      | Option.none => Option.none)).head?
  | .bool b => Option.some (pyToFloat (.bool b))
  | .int n => Option.some ((n : ℚ))
  | .float q => Option.some q
  | .str s => parseFloat? s
  | _ => Option.none

/-- Fractional decimal digits of `r / d` (fuel-bounded; every value the
fiscal coercion renders terminates well inside the fuel). -/
def fracDigits : Nat → Nat → Nat → String
  | 0, _, _ => ""
  | _ + 1, 0, _ => ""
  | fuel + 1, r, d =>
    let r10 := r * 10
    toString (r10 / d) ++ fracDigits fuel (r10 % d) d

/-- Model of the builtin `str` on a float: integers print with a trailing
`.0`, other values print their decimal expansion. -/
def floatStr (q : ℚ) : String :=
  if q.den = 1 then toString q.num ++ ".0"
  else
    (if q < 0 then "-" else "") ++
      toString (q.num.natAbs / q.den) ++ "." ++ fracDigits 40 (q.num.natAbs % q.den) q.den

mutual

/-- Model of the builtin `str` on a `PyVal` (`str(value)`). -/
def pyStr : PyVal → String
  | .none => "None"
  | .bool b => if b then "True" else "False"
  | .int n => toString n
  | .float q => floatStr q
  | .str s => s
  | .list xs => "[" ++ String.intercalate ", " (pyReprList xs) ++ "]"
  | .dict es => "\x7b" ++ String.intercalate ", " (pyReprEntries es) ++ "\x7d"

/-- Model of the builtin `repr` on a `PyVal`, used for container elements. -/
def pyRepr : PyVal → String
  | .str s => "'" ++ s ++ "'"
  | v => pyStr v

def pyReprList : List PyVal → List String
  | [] => []
  | v :: vs => pyRepr v :: pyReprList vs

def pyReprEntries : List (String × PyVal) → List String
  | [] => []
  | (k, v) :: es => ("'" ++ k ++ "': " ++ pyRepr v) :: pyReprEntries es

end

/-- The scalar rule of `_extract_fiscal_cheque_number` for a numeric value
(`str(int(value)) if float(value).is_integer() else str(value)`):
`float(v).is_integer()` holds exactly when the rational has denominator 1,
and `str(int(v))` is then the integer's text. -/
def scalarNumStr (v : PyVal) : String :=
  let q := pyToFloat v
  if q.den = 1 then toString q.num else floatStr q

/-- The per-item cleaning loop of `_extract_fiscal_cheque_number`: `None`
items are skipped, numeric items (booleans included) follow the scalar rule,
anything else is `str(item).strip()`. -/
def cleanItem : PyVal → Option String
  | .none => Option.none
  | .bool b => Option.some (scalarNumStr (.bool b))
  | .int n => Option.some (scalarNumStr (.int n))
  | .float q => Option.some (scalarNumStr (.float q))
  | v => Option.some (pyStrip (pyStr v))

/-- `_extract_fiscal_cheque_number` (iiko_parser.py, lines 57-81). -/
def extractFiscalChequeNumber : PyVal → Option String
  | .none => Option.none
  | .bool b => Option.some (scalarNumStr (.bool b))
  | .int n => Option.some (scalarNumStr (.int n))
  | .float q => Option.some (scalarNumStr (.float q))
  | .str s => Option.some (pyStrip s)
  | .list xs =>
    let cleaned := xs.filterMap cleanItem
    if cleaned.isEmpty then Option.none
    else Option.some (String.intercalate ", " cleaned)
  | .dict es => Option.some (pyStrip (pyStr (.dict es)))

/-!
Modifier trees (`IikoParser.parse_item_modifiers`, iiko_parser.py lines
362-414).  A raw modifier node carries the `modifier` external identifier
(`Option String`; Python's falsy test also drops the empty string), the
attribute fields read with `.get` defaults, and the `childModifiers` list.
-/

structure ModAttrs where
  deleted : Bool
  defaultAmount : Int
  freeOfChargeAmount : Int
  minimumAmount : Int
  maximumAmount : Int
  hideIfDefaultAmount : Bool
  childModifiersHaveMinMaxRestrictions : Bool
  splittable : Bool
deriving Repr, DecidableEq

inductive ModData where
  | mk (modifier : Option String) (attrs : ModAttrs) (childModifiers : List ModData)
deriving Repr

/-- One row appended to `parsed_modifiers`. -/
structure ParsedModifier where
  iiko_id : String
  item_iiko_id : String
  parent_modifier_iiko_id : Option String
  attrs : ModAttrs
deriving Repr, DecidableEq

/-- `if not modifier_iiko_id` — the node is dropped when the identifier is
missing or empty. -/
def modHasId : Option String → Bool
  | Option.some s => !(s = "")
  | Option.none => false

mutual

/-- `parse_modifier_recursive` (iiko_parser.py lines 382-407): bail out on a
falsy identifier, otherwise append the node's row and recurse into
`childModifiers` with this node as parent. -/
def parseModifierRecursive (itemId : String) (parent : Option String) : ModData → List ParsedModifier
  | .mk modifier attrs children =>
    match modifier with
    | Option.none => []
    | Option.some mid =>
      if mid = "" then []
      else ⟨mid, itemId, parent, attrs⟩ :: parseModifierList itemId (Option.some mid) children

def parseModifierList (itemId : String) (parent : Option String) : List ModData → List ParsedModifier
  | [] => []
  | m :: ms => parseModifierRecursive itemId parent m ++ parseModifierList itemId parent ms

end

/-- `parse_item_modifiers`: the top-level loop over `modifiers_data` with no
parent (the `if not modifiers_data: return []` guard coincides with the
empty-list case). -/
def parseItemModifiers (itemId : String) (mods : List ModData) : List ParsedModifier :=
  parseModifierList itemId Option.none mods

mutual

/-- Spec-side pruning: a node without an external identifier is dropped
together with its entire subtree; retained nodes keep their pruned
children. -/
def pruneNode : ModData → Option ModData
  | .mk modifier attrs children =>
    if modHasId modifier then Option.some (.mk modifier attrs (pruneForest children))
    else Option.none

def pruneForest : List ModData → List ModData
  | [] => []
  | m :: ms =>
    match pruneNode m with
    | Option.some t => t :: pruneForest ms
    | Option.none => pruneForest ms

end

mutual

/-- Spec-side pre-order traversal of an (already pruned) tree: each node's
row is emitted before its children's, children referencing the node as
parent. -/
def preorderNode (itemId : String) (parent : Option String) : ModData → List ParsedModifier
  | .mk modifier attrs children =>
    let mid := modifier.getD ""
    ⟨mid, itemId, parent, attrs⟩ :: preorderForest itemId (Option.some mid) children

def preorderForest (itemId : String) (parent : Option String) : List ModData → List ParsedModifier
  | [] => []
  | m :: ms => preorderNode itemId parent m ++ preorderForest itemId parent ms

end

/-!
`IikoParser.parse_organizations` (iiko_parser.py lines 88-106).  The source
stamps each record with `datetime.now()`; the wall clock is modelled as an
explicit `now : Nat` argument so that dependence on the invocation time is
visible in the embedding.
-/

structure ParsedOrg where
  iiko_id : PyVal
  name : PyVal
  code : PyVal
  is_active : Bool
  created_at : Nat
  updated_at : Nat
deriving Repr

def parseOrganizations (now : Nat) (data : List (List (String × PyVal))) : List ParsedOrg :=
  data.map (fun org =>
    { iiko_id := pyGet org "id" .none
      name := pyGet org "name" .none
      code := pyGet org "code" (.str "")
      is_active := true
      created_at := now
      updated_at := now })

/-- The time-independent part of a parsed organization record. -/
def orgPayload (o : ParsedOrg) : PyVal × PyVal × PyVal × Bool :=
  (o.iiko_id, o.name, o.code, o.is_active)


/-!
`IikoParser.parse_transactions` (iiko_parser.py lines 716-895).  The source
builds one Python dict per raw transaction, so the embedding maps each raw
record (an association list) to the corresponding association list.  The
wall clock is passed to the entry point for uniformity with the other
normalization entry points; the source of `parse_transactions` contains no
`datetime.now()`, so the clock argument is provably never consulted.
-/

/-- `transaction.get(k)` (default `None`). -/
def tGet (transaction : List (String × PyVal)) (k : String) : PyVal :=
  pyGet transaction k .none

/-- `_safe_get(transaction, k)`. -/
def tSafe (transaction : List (String × PyVal)) (k : String) : PyVal :=
  safeGet transaction k .none

/-- A numeric extraction result as the Python value it is: a float or
`None`. -/
def optFloat : Option ℚ → PyVal
  | Option.some q => .float q
  | Option.none => .none

/-- `_extract_numeric_value(transaction.get(k))`. -/
def tNum (transaction : List (String × PyVal)) (k : String) : PyVal :=
  optFloat (extractNumericValue (pyGet transaction k .none))

/-- The dict literal built for one raw transaction, field for field. -/
def parseTransaction (transaction : List (String × PyVal)) : List (String × PyVal) :=
  [   ("iiko_id", tSafe transaction "Id"),
   ("order_id", tSafe transaction "OrderId"),
   ("order_num", tGet transaction "OrderNum"),
   ("document", tGet transaction "Document"),
   ("amount", tGet transaction "Amount"),
   ("sum_resigned", tNum transaction "Sum.ResignedSum"),
   ("sum_incoming", tNum transaction "Sum.Incoming"),
   ("sum_outgoing", tNum transaction "Sum.Outgoing"),
   ("sum_part_of_income", tNum transaction "Sum.PartOfIncome"),
   ("sum_part_of_total_income", tNum transaction "Sum.PartOfTotalIncome"),
   ("start_balance_money", tNum transaction "StartBalance.Money"),
   ("final_balance_money", tNum transaction "FinalBalance.Money"),
   ("start_balance_amount", tNum transaction "StartBalance.Amount"),
   ("final_balance_amount", tNum transaction "FinalBalance.Amount"),
   ("amount_in", tNum transaction "Amount.In"),
   ("amount_out", tNum transaction "Amount.Out"),
   ("contr_amount", tGet transaction "Contr-Amount"),
   ("transaction_type", tGet transaction "TransactionType"),
   ("transaction_type_code", tSafe transaction "TransactionType.Code"),
   ("transaction_side", tGet transaction "TransactionSide"),
   ("product_id", tSafe transaction "Product.Id"),
   ("product_name", tGet transaction "Product.Name"),
   ("product_num", tGet transaction "Product.Num"),
   ("product_category_id", tSafe transaction "Product.Category.Id"),
   ("product_category", tGet transaction "Product.Category"),
   ("product_type", tGet transaction "Product.Type"),
   ("product_measure_unit", tGet transaction "Product.MeasureUnit"),
   ("product_avg_sum", tNum transaction "Product.AvgSum"),
   ("product_cooking_place_type", tGet transaction "Product.CookingPlaceType"),
   ("product_accounting_category", tGet transaction "Product.AccountingCategory"),
   ("product_top_parent", tGet transaction "Product.TopParent"),
   ("product_second_parent", tGet transaction "Product.SecondParent"),
   ("product_third_parent", tGet transaction "Product.ThirdParent"),
   ("product_hierarchy", tGet transaction "Product.Hierarchy"),
   ("product_tag_id", tSafe transaction "Product.Tag.Id"),
   ("product_tag_name", tGet transaction "Product.Tag.Name"),
   ("product_tags_ids_combo", tGet transaction "Product.Tags.IdsCombo"),
   ("product_tags_names_combo", tGet transaction "Product.Tags.NamesCombo"),
   ("product_alcohol_class", tGet transaction "Product.AlcoholClass"),
   ("product_alcohol_class_code", tSafe transaction "Product.AlcoholClass.Code"),
   ("product_alcohol_class_group", tGet transaction "Product.AlcoholClass.Group"),
   ("product_alcohol_class_type", tGet transaction "Product.AlcoholClass.Type"),
   ("contr_product_id", tSafe transaction "Contr-Product.Id"),
   ("contr_product_name", tGet transaction "Contr-Product.Name"),
   ("contr_product_num", tGet transaction "Contr-Product.Num"),
   ("contr_product_category_id", tSafe transaction "Contr-Product.Category.Id"),
   ("contr_product_category", tGet transaction "Contr-Product.Category"),
   ("contr_product_type", tGet transaction "Contr-Product.Type"),
   ("contr_product_measure_unit", tGet transaction "Contr-Product.MeasureUnit"),
   ("contr_product_accounting_category", tGet transaction "Contr-Product.AccountingCategory"),
   ("contr_product_top_parent", tGet transaction "Contr-Product.TopParent"),
   ("contr_product_second_parent", tGet transaction "Contr-Product.SecondParent"),
   ("contr_product_third_parent", tGet transaction "Contr-Product.ThirdParent"),
   ("contr_product_hierarchy", tGet transaction "Contr-Product.Hierarchy"),
   ("contr_product_tags_ids_combo", tGet transaction "Contr-Product.Tags.IdsCombo"),
   ("contr_product_tags_names_combo", tGet transaction "Contr-Product.Tags.NamesCombo"),
   ("contr_product_alcohol_class", tGet transaction "Contr-Product.AlcoholClass"),
   ("contr_product_alcohol_class_code", tSafe transaction "Contr-Product.AlcoholClass.Code"),
   ("contr_product_alcohol_class_group", tGet transaction "Contr-Product.AlcoholClass.Group"),
   ("contr_product_alcohol_class_type", tGet transaction "Contr-Product.AlcoholClass.Type"),
   ("contr_product_cooking_place_type", tGet transaction "Contr-Product.CookingPlaceType"),
   ("account_id", tSafe transaction "Account.Id"),
   ("account_name", tGet transaction "Account.Name"),
   ("account_code", tSafe transaction "Account.Code"),
   ("account_type", tGet transaction "Account.Type"),
   ("account_group", tGet transaction "Account.Group"),
   ("account_store_or_account", tGet transaction "Account.StoreOrAccount"),
   ("account_counteragent_type", tGet transaction "Account.CounteragentType"),
   ("account_is_cash_flow_account", tGet transaction "Account.IsCashFlowAccount"),
   ("account_hierarchy_top", tGet transaction "Account.AccountHierarchyTop"),
   ("account_hierarchy_second", tGet transaction "Account.AccountHierarchySecond"),
   ("account_hierarchy_third", tGet transaction "Account.AccountHierarchyThird"),
   ("account_hierarchy_full", tGet transaction "Account.AccountHierarchyFull"),
   ("contr_account_name", tGet transaction "Contr-Account.Name"),
   ("contr_account_code", tSafe transaction "Contr-Account.Code"),
   ("contr_account_type", tGet transaction "Contr-Account.Type"),
   ("contr_account_group", tGet transaction "Contr-Account.Group"),
   ("counteragent_id", tSafe transaction "Counteragent.Id"),
   ("counteragent_name", tGet transaction "Counteragent.Name"),
   ("department", tGet transaction "Department"),
   ("department_code", tGet transaction "Department.Code"),
   ("department_jur_person", tGet transaction "Department.JurPerson"),
   ("department_category1", tGet transaction "Department.Category1"),
   ("department_category2", tGet transaction "Department.Category2"),
   ("department_category3", tGet transaction "Department.Category3"),
   ("department_category4", tGet transaction "Department.Category4"),
   ("department_category5", tGet transaction "Department.Category5"),
   ("session_group_id", tSafe transaction "Session.GroupId"),
   ("session_group", tGet transaction "Session.Group"),
   ("session_cash_register", tGet transaction "Session.CashRegister"),
   ("session_restaurant_section", tGet transaction "Session.RestaurantSection"),
   ("conception", tGet transaction "Conception"),
   ("conception_code", tSafe transaction "Conception.Code"),
   ("store", tGet transaction "Store"),
   ("cash_flow_category", tGet transaction "CashFlowCategory"),
   ("cash_flow_category_type", tGet transaction "CashFlowCategory.Type"),
   ("cash_flow_category_hierarchy", tGet transaction "CashFlowCategory.Hierarchy"),
   ("cash_flow_category_hierarchy_level1", tGet transaction "CashFlowCategory.HierarchyLevel1"),
   ("cash_flow_category_hierarchy_level2", tGet transaction "CashFlowCategory.HierarchyLevel2"),
   ("cash_flow_category_hierarchy_level3", tGet transaction "CashFlowCategory.HierarchyLevel3"),
   ("date_time", tGet transaction "DateTime.Typed"),
   ("date_time_typed", tGet transaction "DateTime.Typed"),
   ("date_typed", tGet transaction "DateTime.DateTyped"),
   ("date_secondary_date_time_typed", tGet transaction "DateSecondary.DateTimeTyped"),
   ("date_secondary_date_typed", tGet transaction "DateSecondary.DateTyped"),
   ("date_time_year", tGet transaction "DateTime.Year"),
   ("date_time_quarter", tGet transaction "DateTime.Quarter"),
   ("date_time_month", tGet transaction "DateTime.Month"),
   ("date_time_week_in_year", tGet transaction "DateTime.WeekInYear"),
   ("date_time_week_in_month", tGet transaction "DateTime.WeekInMonth"),
   ("date_time_day_of_week", tGet transaction "DateTime.DayOfWeak"),
   ("date_time_hour", tGet transaction "DateTime.Hour"),
   ("comment", tGet transaction "Comment"),
   ("additional_data", tGet transaction "AdditionalData")]

def parseTransactions (_now : Nat) (data : List (List (String × PyVal))) :
    List (List (String × PyVal)) :=
  data.map parseTransaction

/-!
Window planner and sync orchestration (`routers/iiko/sync.py`,
`sync_transactions` lines 385-458 and `sync_sales` lines 462-544).

A timestamp parsed by `datetime.fromisoformat` is modelled as its calendar
date (a `Nat` ordinal, as produced by `date.toordinal`) together with the
time of day; the planner's truncation `dt.date()` keeps only the ordinal.
-/

structure Timestamp where
  day : Nat
  tod : Nat
deriving Repr, DecidableEq

/-- Python's `date.toordinal`: days since 0001-01-01, that date being day 1
(proleptic Gregorian calendar). -/
def isLeapYear (y : Nat) : Bool :=
  y % 4 = 0 && (!(y % 100 = 0) || y % 400 = 0)

def daysInMonth (y m : Nat) : Nat :=
  if m = 2 then (if isLeapYear y then 29 else 28)
  else if m = 4 ∨ m = 6 ∨ m = 9 ∨ m = 11 then 30
  else 31

def daysBeforeMonth (y m : Nat) : Nat :=
  (List.range (m - 1)).foldl (fun acc i => acc + daysInMonth y (i + 1)) 0

def toordinal (y m d : Nat) : Nat :=
  (y - 1) * 365 + (y - 1) / 4 - (y - 1) / 100 + (y - 1) / 400 + daysBeforeMonth y m + d

/-- The day-by-day `while current_date < end_date` loop, emitting the
half-open one-day window `[current_date, current_date + 1 day)` each
iteration.  The fuel argument is the loop's exact trip count
`end - current` (the guard `current < end` fails exactly when it reaches
zero), which makes the definition structural. -/
def planLoop : Nat → Nat → List (Nat × Nat)
  | 0, _ => []
  | k + 1, current => (current, current + 1) :: planLoop k (current + 1)

/-- Windows planned for the dates `[fromDay, toDay)`. -/
def planWindowsDays (fromDay toDay : Nat) : List (Nat × Nat) :=
  planLoop (toDay - fromDay) fromDay

/-- The full planner: truncate both timestamps to their calendar dates
(`from_dt.date()`, `to_dt.date()`), then run the day loop. -/
def planWindows (fromTs toTs : Timestamp) : List (Nat × Nat) :=
  planWindowsDays fromTs.day toTs.day

/-- The aggregate counters dict `{"created": 0, "updated": 0, "errors": 0,
"deleted": 0}` accumulated by the sync loop. -/
structure SyncResult where
  created : Nat
  updated : Nat
  errors : Nat
  deleted : Nat
deriving Repr, DecidableEq

def SyncResult.zero : SyncResult := ⟨0, 0, 0, 0⟩

/-- Field-wise accumulation: `result["created"] += sync_result.get("created", 0)`
and likewise for the other three counters. -/
def SyncResult.add (a b : SyncResult) : SyncResult :=
  ⟨a.created + b.created, a.updated + b.updated, a.errors + b.errors, a.deleted + b.deleted⟩

/-- What the per-window sync step does with one window: either completes
and reports its counts, or fails outright (transport or persistence
failure for the whole window). -/
inductive DayOutcome where
  | ok (r : SyncResult)
  | failure
deriving Repr

def DayOutcome.isFailure : DayOutcome → Bool
  | .ok _ => false
  | .failure => true

/-- Modelled from the spec: the per-window step `iiko_sync.sync_transactions`
/ `iiko_sync.sync_sales` (module `services.iiko.iiko_sync`, not part of the
sources under review — only its caller in `routers/iiko/sync.py` is).  Per
§4.3 step 3d of the spec, when the fetch or upsert for the whole window
fails outright the step absorbs the failure and reports a result whose
`errors` counter is incremented by one, so the caller's loop proceeds to
the next window. -/
def dayStep : DayOutcome → SyncResult
  | .ok r => r
  | .failure => ⟨0, 0, 1, 0⟩

/-- The accumulation loop of `sync_transactions` / `sync_sales`: starting
from the zero counters, fold each window's step result in chronological
order. -/
def runWindows (step : Nat × Nat → SyncResult) (ws : List (Nat × Nat)) : SyncResult :=
  ws.foldl (fun acc w => acc.add (step w)) SyncResult.zero

/-- The `{success, message, data}` payload returned by the trigger
endpoints. -/
structure Response where
  success : Bool
  message : String
  data : Option SyncResult
deriving Repr, DecidableEq

/-- The trigger endpoint (`sync_transactions`, sync.py lines 385-458;
`sync_sales` is the same shape).  Each date argument is the outcome of
`datetime.fromisoformat` on the supplied (or defaulted) string:
`Option.none` models the parse raising, which the enclosing `try` turns
into the failure response; otherwise the day loop runs each window through
the per-window step and the endpoint reports success with the accumulated
counters (cache invalidation and index optimization are best-effort and
leave the response unchanged). -/
def syncEndpoint (fromTs toTs : Option Timestamp) (outcome : Nat × Nat → DayOutcome) : Response :=
  match fromTs, toTs with
  | Option.some f, Option.some t =>
    { success := true
      message := "Синхронизация завершена"
      data := Option.some (runWindows (fun w => dayStep (outcome w)) (planWindows f t)) }
  | _, _ =>
    { success := false
      message := "Ошибка синхронизации"
      data := Option.none }

/-- The windows of `ws` whose step completed, with their reported counts. -/
def okResults (outcome : Nat × Nat → DayOutcome) (ws : List (Nat × Nat)) : List SyncResult :=
  ws.filterMap (fun w =>
    match outcome w with
    | .ok r => Option.some r
    | .failure => Option.none)

/-- The number of windows of `ws` whose step failed outright. -/
def failCount (outcome : Nat × Nat → DayOutcome) (ws : List (Nat × Nat)) : Nat :=
  (ws.filter (fun w => (outcome w).isFailure)).length

/-! ## Theorems -/

theorem numFromKeys_eq_filterMap (es : List (String × PyVal)) (ks : List String) :
    numFromKeys es ks = (ks.filterMap (fun k =>
      match dictGet es k with
      | Option.some v => if isinstanceNum v then Option.some (pyToFloat v) else Option.none
      | Option.none => Option.none)).head? := by
  induction ks with
  | nil => rfl
  | cons k ks ih =>
    simp only [numFromKeys, List.filterMap_cons]
    cases h : dictGet es k with
    | none => simpa [h] using ih
    | some v =>
      by_cases hn : isinstanceNum v = true
      · simp [h, hn]
      · simpa [h, hn] using ih

/-- C3.  Numeric coercion: `_extract_numeric_value` realises the spec's
coercion contract — a number becomes its float, text parses to a number or
null, a mapping yields the first priority sub-key (`sum`, `value`,
`amount`, `price`, `average`, in that order) holding a numeric value and
null when none does, and any other input yields null — together with the
spec's worked examples. -/
theorem numeric_coercion_correct :
    (∀ v : PyVal, extractNumericValue v = extractNumericSpec v) ∧
    extractNumericValue (.dict [("sum", .float (25 / 2))]) = Option.some (25 / 2) ∧
    extractNumericValue (.str "7") = Option.some 7 ∧
    extractNumericValue (.int 7) = Option.some 7 ∧
    extractNumericValue (.dict []) = Option.none ∧
    extractNumericValue (.dict [("foo", .int 1)]) = Option.none ∧
    extractNumericValue .none = Option.none ∧
    (∀ xs : List PyVal, extractNumericValue (.list xs) = Option.none) := by
  refine ⟨?_, rfl, rfl, rfl, rfl, rfl, rfl, fun xs => rfl⟩
  intro v
  cases v with
  | dict es => simpa [extractNumericValue, extractNumericSpec] using numFromKeys_eq_filterMap es priorityKeys
  | _ => rfl

/-- C5.  Boolean coercion: `_parse_boolean` passes a native bool through,
maps text to the case-insensitive comparison with "true", and maps every
other input — numbers included — to false. -/
theorem boolean_coercion_correct :
    (∀ b : Bool, parseBoolean (.bool b) = b) ∧
    (∀ s : String, (parseBoolean (.str s) = true ↔ pyLower s = "true")) ∧
    parseBoolean (.str "TRUE") = true ∧
    parseBoolean (.str "false") = false ∧
    parseBoolean (.bool true) = true ∧
    parseBoolean (.int 123) = false ∧
    parseBoolean .none = false ∧
    (∀ n : Int, parseBoolean (.int n) = false) ∧
    (∀ q : ℚ, parseBoolean (.float q) = false) ∧
    (∀ xs : List PyVal, parseBoolean (.list xs) = false) ∧
    (∀ es : List (String × PyVal), parseBoolean (.dict es) = false) := by
  refine ⟨fun b => rfl, ?_, by decide, by decide, rfl, rfl, rfl,
    fun n => rfl, fun q => rfl, fun xs => rfl, fun es => rfl⟩
  intro s
  simp [parseBoolean]

/-- C10.  Implicit: booleans satisfy `isinstance(value, (int, float))`, so
numeric coercion accepts them — `True` coerces to 1.0 and `False` to 0.0,
both top-level and as the value of a priority sub-key. -/
theorem numeric_coercion_accepts_booleans :
    extractNumericValue (.bool true) = Option.some 1 ∧
    extractNumericValue (.bool false) = Option.some 0 ∧
    extractNumericValue (.dict [("sum", .bool true)]) = Option.some 1 ∧
    extractNumericValue (.dict [("sum", .bool false)]) = Option.some 0 ∧
    extractNumericValue (.dict [("value", .bool true)]) = Option.some 1 := by
  refine ⟨rfl, rfl, rfl, rfl, rfl⟩

/-- C9.  Safe-get equivalence: a key bound to the empty mapping and an
absent key are indistinguishable through `_safe_get` under the default
null — both lookups return null. -/
theorem safe_get_empty_dict_eq_absent
    (es₁ es₂ : List (String × PyVal)) (k : String)
    (h₁ : dictGet es₁ k = Option.some (.dict []))
    (h₂ : dictGet es₂ k = Option.none) :
    safeGet es₁ k .none = safeGet es₂ k .none ∧ safeGet es₁ k .none = .none := by
  have e₁ : safeGet es₁ k .none = .none := by simp [safeGet, pyGet, h₁]
  have e₂ : safeGet es₂ k .none = .none := by simp [safeGet, pyGet, h₂]
  exact ⟨e₁.trans e₂.symm, e₁⟩

/-- Witness for C9 at the mappings `[("k", ΓΓ)]` (where ΓΓ is the empty
dict) and `[]`. -/
theorem safe_get_empty_dict_eq_absent_witness :
    dictGet [("k", .dict [])] "k" = Option.some (.dict []) ∧
    dictGet [] "k" = Option.none ∧
    (safeGet [("k", .dict [])] "k" .none = safeGet [] "k" .none ∧
      safeGet [("k", .dict [])] "k" .none = .none) :=
  ⟨rfl, rfl, safe_get_empty_dict_eq_absent [("k", .dict [])] [] "k" rfl rfl⟩

/-- Python's `is None` test on a value. -/
def isNone : PyVal → Bool
  | .none => true
  | _ => false

/-- The claim's scalar rule, worded from the spec: a number with no
fractional part is rendered as an integer string and otherwise as its
literal text; a string is trimmed; any other type falls back to a trimmed
string conversion. -/
def scalarRule (v : PyVal) : String :=
  if isinstanceNum v then
    (if (pyToFloat v).den = 1 then toString (pyToFloat v).num else floatStr (pyToFloat v))
  else
    match v with
    | .str s => pyStrip s
    | w => pyStrip (pyStr w)

/-- The source's per-item cleaning loop computes exactly the claim's
sequence rule: drop the null elements, apply the scalar rule to each
remaining element. -/
theorem filterMap_cleanItem_eq_scalarRule (xs : List PyVal) :
    xs.filterMap cleanItem = (xs.filter (fun x => !(isNone x))).map scalarRule := by
  induction xs with
  | nil => rfl
  | cons x xs ih =>
    cases x <;>
      simp [cleanItem, isNone, scalarRule, scalarNumStr, isinstanceNum,
        List.filterMap_cons, List.filter_cons, ih, pyStr]

/-- C6.  Composite-identifier coercion: `_extract_fiscal_cheque_number`
maps null to null, renders an integer-valued number as an integer string
and any other number as its literal text, trims a string, renders a
sequence by applying the scalar rule to each non-null element and joining
the results with ", " (empty and all-null sequences yield null), and falls
back to a trimmed string conversion on any other type; with the spec's
worked examples. -/
theorem fiscal_cheque_coercion_correct :
    extractFiscalChequeNumber .none = Option.none ∧
    (∀ q : ℚ, q.den = 1 → extractFiscalChequeNumber (.float q) = Option.some (toString q.num)) ∧
    (∀ q : ℚ, q.den ≠ 1 → extractFiscalChequeNumber (.float q) = Option.some (floatStr q)) ∧
    (∀ n : Int, extractFiscalChequeNumber (.int n) = Option.some (toString n)) ∧
    (∀ s : String, extractFiscalChequeNumber (.str s) = Option.some (pyStrip s)) ∧
    extractFiscalChequeNumber (.list []) = Option.none ∧
    (∀ xs : List PyVal, (∀ x ∈ xs, x = PyVal.none) →
      extractFiscalChequeNumber (.list xs) = Option.none) ∧
    extractFiscalChequeNumber (.list [.int 19758, .int 23]) = Option.some "19758, 23" ∧
    (∀ es : List (String × PyVal),
      extractFiscalChequeNumber (.dict es) = Option.some (pyStrip (pyStr (.dict es)))) ∧
    extractFiscalChequeNumber (.float 19758) = Option.some "19758" ∧
    (∀ xs : List PyVal,
      extractFiscalChequeNumber (.list xs) =
        (if ((xs.filter (fun x => !(isNone x))).map scalarRule).isEmpty then Option.none
         else Option.some
           (String.intercalate ", " ((xs.filter (fun x => !(isNone x))).map scalarRule)))) ∧
    extractFiscalChequeNumber (.list [.none, .int 19758, .str "  A7 "]) =
      Option.some "19758, A7" := by
  refine ⟨rfl, ?_, ?_, ?_, fun s => rfl, rfl, ?_, by decide, fun es => rfl, by decide,
    ?_, ?_⟩
  · intro q h
    simp [extractFiscalChequeNumber, scalarNumStr, pyToFloat, h]
  · intro q h
    simp [extractFiscalChequeNumber, scalarNumStr, pyToFloat, h]
  · intro n
    simp [extractFiscalChequeNumber, scalarNumStr, pyToFloat]
  · intro xs h
    have : xs.filterMap cleanItem = [] := by
      rw [List.filterMap_eq_nil_iff]
      intro x hx
      rw [h x hx]
      rfl
    simp [extractFiscalChequeNumber, this]
  · intro xs
    simp only [extractFiscalChequeNumber, filterMap_cleanItem_eq_scalarRule]
  · have h3 : cleanItem (.str "  A7 ") = Option.some "A7" := by
      simp only [cleanItem, pyStr]
      decide
    simp [extractFiscalChequeNumber, List.filterMap_cons, h3,
      show cleanItem PyVal.none = Option.none from rfl,
      show cleanItem (.int 19758) = Option.some "19758" from by decide]
    decide

/-- Witness for C6 at the non-integer number 5/2 and the all-null
sequence `[None]`. -/
theorem fiscal_cheque_coercion_correct_witness :
    (((5 : ℚ) / 2).den ≠ 1 ∧
      extractFiscalChequeNumber (.float ((5 : ℚ) / 2)) = Option.some (floatStr ((5 : ℚ) / 2))) ∧
    ((∀ x ∈ [PyVal.none], x = PyVal.none) ∧
      extractFiscalChequeNumber (.list [PyVal.none]) = Option.none) :=
  ⟨⟨by norm_num, fiscal_cheque_coercion_correct.2.2.1 ((5 : ℚ) / 2) (by norm_num)⟩,
   ⟨by simp, fiscal_cheque_coercion_correct.2.2.2.2.2.2.1 [PyVal.none] (by simp)⟩⟩

def sampleAttrs : ModAttrs := ⟨false, 0, 0, 0, 0, false, false, false⟩

mutual

theorem parseModifierRecursive_eq_pruned (itemId : String) (parent : Option String) (m : ModData) :
    parseModifierRecursive itemId parent m =
      (match pruneNode m with
       | Option.some t => preorderNode itemId parent t
       | Option.none => []) := by
  cases m with
  | mk modifier attrs children =>
    cases modifier with
    | none => simp [parseModifierRecursive, pruneNode, modHasId]
    | some mid =>
      by_cases h : mid = ""
      · simp [parseModifierRecursive, pruneNode, modHasId, h]
      · simp [parseModifierRecursive, pruneNode, preorderNode, modHasId, h,
          parseModifierList_eq_pruned itemId (Option.some mid) children]
termination_by sizeOf m

theorem parseModifierList_eq_pruned (itemId : String) (parent : Option String) (ms : List ModData) :
    parseModifierList itemId parent ms = preorderForest itemId parent (pruneForest ms) := by
  cases ms with
  | nil => rfl
  | cons m ms =>
    have h1 := parseModifierRecursive_eq_pruned itemId parent m
    have h2 := parseModifierList_eq_pruned itemId parent ms
    cases hp : pruneNode m with
    | none =>
      rw [hp] at h1
      simp [parseModifierList, pruneForest, hp, h1, h2]
    | some t =>
      rw [hp] at h1
      simp [parseModifierList, pruneForest, preorderForest, hp, h1, h2]
termination_by sizeOf ms

end

/-- C4.  Recursive modifier-tree flattening is the pre-order traversal of
the forest pruned of every identifier-less node together with its entire
subtree; concretely, in a tree whose middle child lacks an identifier, that
child and its descendant are absent from the output while the sibling
branch is flattened unaffected (emitted after its parent, referencing it). -/
theorem modifier_flattening_correct :
    (∀ (itemId : String) (ms : List ModData),
        parseItemModifiers itemId ms = preorderForest itemId Option.none (pruneForest ms)) ∧
    parseItemModifiers "item"
        [ModData.mk (Option.some "a") sampleAttrs
          [ModData.mk Option.none sampleAttrs [ModData.mk (Option.some "c") sampleAttrs []],
           ModData.mk (Option.some "d") sampleAttrs []]] =
      [⟨"a", "item", Option.none, sampleAttrs⟩, ⟨"d", "item", Option.some "a", sampleAttrs⟩] := by
  constructor
  · intro itemId ms
    exact parseModifierList_eq_pruned itemId Option.none ms
  · simp [parseItemModifiers, parseModifierList, parseModifierRecursive]

/-- C8 counterexample.  Two invocations of `parse_organizations` on the
same raw record at different times produce different records: the source
stamps `created_at`/`updated_at` with `datetime.now()`, so the output does
not depend on the input alone. -/
theorem normalizer_not_time_independent :
    parseOrganizations 0 [[("id", PyVal.str "o1")]] ≠
      parseOrganizations 1 [[("id", PyVal.str "o1")]] := by
  intro h
  have h2 := congrArg (fun l => l.map (fun o => o.created_at)) h
  simp [parseOrganizations] at h2

/-- C8 amended.  Normalization is deterministic in the raw records up to
the audit timestamps: `parse_transactions` never consults the clock, so two
invocations at any two times produce identical canonical records, each raw
record mapped by the pure per-record function; `parse_organizations` stamps
`created_at`/`updated_at` with the invocation time, and erasing exactly
those two fields its outputs at any two times are identical, depending only
on the input. -/
theorem normalizer_deterministic_up_to_timestamps :
    (∀ (t₁ t₂ : Nat) (data : List (List (String × PyVal))),
        parseTransactions t₁ data = parseTransactions t₂ data) ∧
    (∀ (t : Nat) (data : List (List (String × PyVal))),
        parseTransactions t data = data.map parseTransaction) ∧
    (∀ (t₁ t₂ : Nat) (data : List (List (String × PyVal))),
        (parseOrganizations t₁ data).map orgPayload =
          (parseOrganizations t₂ data).map orgPayload) := by
  refine ⟨fun t₁ t₂ data => rfl, fun t data => rfl, ?_⟩
  intro t₁ t₂ data
  simp [parseOrganizations, orgPayload, List.map_map, Function.comp_def]

theorem planLoop_eq_range (k c : Nat) :
    planLoop k c = (List.range k).map (fun i => (c + i, c + i + 1)) := by
  induction k generalizing c with
  | zero => rfl
  | succ k ih =>
    rw [planLoop, List.range_succ_eq_map]
    simp only [List.map_cons, List.map_map, Nat.add_zero]
    refine congrArg₂ List.cons rfl ?_
    rw [ih (c + 1)]
    apply List.map_congr_left
    intro i _
    simp [Function.comp_def]
    omega

/-- C2.  Window Planner: both timestamps are truncated to their calendar
dates; a non-increasing range plans zero windows; otherwise the plan is
exactly the chronologically ordered half-open one-day windows
`[d, d + 1)` for `d` from `from_date` up to but excluding `to_date`, with
`to_date - from_date` windows in all; and the spec's worked example
2025-10-01 .. 2025-10-04 plans exactly its three one-day windows. -/
theorem window_planner_correct :
    (∀ f t : Timestamp,
        planWindows f t = (List.range (t.day - f.day)).map (fun i => (f.day + i, f.day + i + 1)) ∧
        (planWindows f t).length = t.day - f.day) ∧
    (∀ f t : Timestamp, t.day ≤ f.day → planWindows f t = []) ∧
    (∀ f f' t t' : Timestamp, f.day = f'.day → t.day = t'.day →
        planWindows f t = planWindows f' t') ∧
    planWindows ⟨toordinal 2025 10 1, 0⟩ ⟨toordinal 2025 10 4, 0⟩ =
      [(toordinal 2025 10 1, toordinal 2025 10 2),
       (toordinal 2025 10 2, toordinal 2025 10 3),
       (toordinal 2025 10 3, toordinal 2025 10 4)] := by
  refine ⟨?_, ?_, ?_, by decide⟩
  · intro f t
    constructor
    · exact planLoop_eq_range (t.day - f.day) f.day
    · rw [planWindows, planWindowsDays, planLoop_eq_range]
      simp
  · intro f t h
    rw [planWindows, planWindowsDays, Nat.sub_eq_zero_of_le h]
    rfl
  · intro f f' t t' hf ht
    rw [planWindows, planWindows, planWindowsDays, planWindowsDays, hf, ht]

/-- Witness for C2: an inverted range plans no windows, and the planner
sees only the calendar dates of its inputs. -/
theorem window_planner_correct_witness :
    (Timestamp.day ⟨3, 5⟩ ≤ Timestamp.day ⟨7, 0⟩ ∧ planWindows ⟨7, 0⟩ ⟨3, 5⟩ = []) ∧
    (Timestamp.day ⟨2, 99⟩ = Timestamp.day ⟨2, 0⟩ ∧ Timestamp.day ⟨4, 1⟩ = Timestamp.day ⟨4, 7⟩ ∧
      planWindows ⟨2, 99⟩ ⟨4, 1⟩ = planWindows ⟨2, 0⟩ ⟨4, 7⟩) :=
  ⟨⟨by decide, window_planner_correct.2.1 ⟨7, 0⟩ ⟨3, 5⟩ (by decide)⟩,
   ⟨rfl, rfl, window_planner_correct.2.2.1 ⟨2, 99⟩ ⟨2, 0⟩ ⟨4, 1⟩ ⟨4, 7⟩ rfl rfl⟩⟩

theorem foldl_add_eq_sums (step : Nat × Nat → SyncResult) (ws : List (Nat × Nat)) :
    ∀ acc : SyncResult,
      ws.foldl (fun a w => a.add (step w)) acc =
        ⟨acc.created + (ws.map (fun w => (step w).created)).sum,
         acc.updated + (ws.map (fun w => (step w).updated)).sum,
         acc.errors + (ws.map (fun w => (step w).errors)).sum,
         acc.deleted + (ws.map (fun w => (step w).deleted)).sum⟩ := by
  induction ws with
  | nil => intro acc; simp
  | cons w ws ih =>
    intro acc
    rw [List.foldl_cons, ih]
    simp [SyncResult.add, SyncResult.mk.injEq]
    refine ⟨by omega, by omega, by omega, by omega⟩

/-- The accumulation loop computes the field-wise sums of the per-window
results, in particular processing every window of the plan. -/
theorem runWindows_eq_sums (step : Nat × Nat → SyncResult) (ws : List (Nat × Nat)) :
    runWindows step ws =
      ⟨(ws.map (fun w => (step w).created)).sum,
       (ws.map (fun w => (step w).updated)).sum,
       (ws.map (fun w => (step w).errors)).sum,
       (ws.map (fun w => (step w).deleted)).sum⟩ := by
  rw [runWindows, foldl_add_eq_sums]
  simp [SyncResult.zero]

theorem dayStep_proj_sum (pr : SyncResult → Nat) (hpr : pr ⟨0, 0, 1, 0⟩ = 0)
    (outcome : Nat × Nat → DayOutcome) (ws : List (Nat × Nat)) :
    (ws.map (fun w => pr (dayStep (outcome w)))).sum = ((okResults outcome ws).map pr).sum := by
  induction ws with
  | nil => rfl
  | cons w ws ih =>
    cases h : outcome w with
    | ok r => simp [okResults, List.filterMap_cons, h, dayStep, ih, okResults] at ih ⊢
    | failure => simp [okResults, List.filterMap_cons, h, dayStep, hpr, ih, okResults] at ih ⊢

theorem dayStep_errors_sum (outcome : Nat × Nat → DayOutcome) (ws : List (Nat × Nat)) :
    (ws.map (fun w => (dayStep (outcome w)).errors)).sum =
      failCount outcome ws + ((okResults outcome ws).map SyncResult.errors).sum := by
  induction ws with
  | nil => rfl
  | cons w ws ih =>
    cases h : outcome w with
    | ok r =>
      simp [okResults, failCount, List.filterMap_cons, List.filter_cons, h, dayStep,
        DayOutcome.isFailure, okResults, failCount] at ih ⊢
      omega
    | failure =>
      simp [okResults, failCount, List.filterMap_cons, List.filter_cons, h, dayStep,
        DayOutcome.isFailure, okResults, failCount] at ih ⊢
      omega

/-- C1.  Partial-failure isolation: over any multi-window run, a window
whose step fails outright contributes exactly one to the aggregate
`errors` counter and nothing else, and processing continues through every
window — the aggregate `created`/`updated`/`deleted` counters are the sums
over precisely the non-failing windows, wherever the failures fall. -/
theorem partial_failure_isolation :
    ∀ (ws : List (Nat × Nat)) (outcome : Nat × Nat → DayOutcome), 2 ≤ ws.length →
      (runWindows (fun w => dayStep (outcome w)) ws).errors =
          failCount outcome ws + ((okResults outcome ws).map SyncResult.errors).sum ∧
      (runWindows (fun w => dayStep (outcome w)) ws).created =
          ((okResults outcome ws).map SyncResult.created).sum ∧
      (runWindows (fun w => dayStep (outcome w)) ws).updated =
          ((okResults outcome ws).map SyncResult.updated).sum ∧
      (runWindows (fun w => dayStep (outcome w)) ws).deleted =
          ((okResults outcome ws).map SyncResult.deleted).sum := by
  intro ws outcome _
  rw [runWindows_eq_sums]
  exact ⟨dayStep_errors_sum outcome ws,
    dayStep_proj_sum (fun r => r.created) rfl outcome ws,
    dayStep_proj_sum (fun r => r.updated) rfl outcome ws,
    dayStep_proj_sum (fun r => r.deleted) rfl outcome ws⟩

/-- A three-window run whose middle window fails. -/
def witOutcome : Nat × Nat → DayOutcome :=
  fun w => if w.1 = 1 then DayOutcome.failure else DayOutcome.ok ⟨5, 2, 0, 1⟩

def witWindows : List (Nat × Nat) := [(0, 1), (1, 2), (2, 3)]

/-- Witness for C1: in the three-window run where window 2's step fails,
`errors = 1` and the other counters reflect only windows 1 and 3. -/
theorem partial_failure_isolation_witness :
    2 ≤ witWindows.length ∧
      ((runWindows (fun w => dayStep (witOutcome w)) witWindows).errors =
          failCount witOutcome witWindows +
            ((okResults witOutcome witWindows).map SyncResult.errors).sum ∧
        (runWindows (fun w => dayStep (witOutcome w)) witWindows).created =
            ((okResults witOutcome witWindows).map SyncResult.created).sum ∧
        (runWindows (fun w => dayStep (witOutcome w)) witWindows).updated =
            ((okResults witOutcome witWindows).map SyncResult.updated).sum ∧
        (runWindows (fun w => dayStep (witOutcome w)) witWindows).deleted =
            ((okResults witOutcome witWindows).map SyncResult.deleted).sum) :=
  ⟨by decide, partial_failure_isolation witWindows witOutcome (by decide)⟩

/-- C7.  Trigger-surface error contract: whenever the run executes (both
range bounds parse) the endpoint answers `success = true` with the four
aggregated counters as `data` — whatever the per-window outcomes, so a
window-scoped failure never produces `success = false` and is visible only
as a nonzero `errors` count — and it answers `success = false` with null
`data` exactly on a top-level failure (a range bound that does not
parse). -/
theorem trigger_surface_error_contract :
    (∀ (f t : Timestamp) (outcome : Nat × Nat → DayOutcome),
        syncEndpoint (Option.some f) (Option.some t) outcome =
          ⟨true, "Синхронизация завершена",
            Option.some (runWindows (fun w => dayStep (outcome w)) (planWindows f t))⟩) ∧
    (∀ (f t : Timestamp) (outcome : Nat × Nat → DayOutcome),
        ∃ r : SyncResult,
          (syncEndpoint (Option.some f) (Option.some t) outcome).success = true ∧
          (syncEndpoint (Option.some f) (Option.some t) outcome).data = Option.some r ∧
          r.errors = failCount outcome (planWindows f t) +
            ((okResults outcome (planWindows f t)).map SyncResult.errors).sum ∧
          r.created = ((okResults outcome (planWindows f t)).map SyncResult.created).sum) ∧
    (∀ (ts : Option Timestamp) (outcome : Nat × Nat → DayOutcome),
        syncEndpoint Option.none ts outcome = ⟨false, "Ошибка синхронизации", Option.none⟩ ∧
        syncEndpoint ts Option.none outcome = ⟨false, "Ошибка синхронизации", Option.none⟩) := by
  refine ⟨fun f t outcome => rfl, ?_, ?_⟩
  · intro f t outcome
    refine ⟨runWindows (fun w => dayStep (outcome w)) (planWindows f t), rfl, rfl, ?_, ?_⟩
    · rw [runWindows_eq_sums]
      exact dayStep_errors_sum outcome (planWindows f t)
    · rw [runWindows_eq_sums]
      exact dayStep_proj_sum (fun r => r.created) rfl outcome (planWindows f t)
  · intro ts outcome
    exact ⟨by cases ts <;> rfl, by cases ts <;> rfl⟩
